import Mathlib

/-!
Verification development for the RemotePromptServer job execution and
event-streaming pipeline.  The definitions below are a shallow embedding of
the Python sources:

* `session_manager.py` — the three backend runner strategies
  (`ClaudeSessionManager`, `CodexSessionManager`, `GeminiSessionManager`)
  and the `SessionManager` facade;
* `job_manager.py` — `JobManager.create_job` / `JobManager._execute_job`;
* `sse_manager.py` — `SSEManager.broadcast_event` and its subscription state.

Modelling conventions:

* the outcome of `subprocess.run` is an explicit parameter (`ProcResult`):
  a timeout (`subprocess.TimeoutExpired`), any other launch/execution fault
  (caught `Exception`, carrying `str(exc)`), or a completed process with a
  return code and captured stdout/stderr;
* `uuid.uuid4()` is an explicit `freshUuid` parameter, `datetime.now(...)`
  an explicit clock parameter;
* the SQLAlchemy store is a record of lists; `db.flush` / `db.commit` /
  broadcast / notification calls are recorded in an event trace
  (commits internal to the session managers' own short-lived DB sessions
  only touch the session table and are folded into the returned store);
* Python exceptions that escape a function are modelled with `Except`;
* the JSON text stored in `Thread.unread_runners` is modelled by
  `UnreadField`: the NULL / empty-string case, an unparsable text, or a
  parsed list of runner names (`json.dumps` of a string list round-trips);
* `time.time()` values are modelled as rationals.
-/

/-- Outcome of a `subprocess.run` invocation of an external backend process. -/
inductive ProcResult where
  | timeout
  | fault (msg : String)
  | completed (returncode : Int) (stdout stderr : String)
deriving DecidableEq, Repr

/-- Composite key of the `device_sessions` table:
`(device_id, room_id, runner, thread_id)`. -/
structure SessionKey where
  device_id : String
  room_id : String
  runner : String
  thread_id : String
deriving DecidableEq, Repr

/-- The Session Directory: the `device_sessions` table as an association
list from key to `session_id`. -/
abbrev SessionStore := List (SessionKey × String)

/-- `_get_session_id_from_db`: `query(DeviceSession).filter_by(...).first()`. -/
def lookupSession (store : SessionStore) (k : SessionKey) : Option String :=
  (store.find? (fun e => e.1 = k)).map (fun e => e.2)

/-- `_save_session_id_to_db`: update the first matching record in place, or
add a new record when none exists, then commit. -/
def saveSession : SessionStore → SessionKey → String → SessionStore
  | [], k, sid => [(k, sid)]
  | e :: rest, k, sid =>
    if e.1 = k then (k, sid) :: rest else e :: saveSession rest k sid

/-- The structured result dictionary every backend `execute_job` returns:
`{"success": ..., "output": ..., "session_id": ..., "error": ...}`. -/
structure ExecResult where
  success : Bool
  output : String
  session_id : Option String
  error : String
deriving DecidableEq, Repr

/-- Characters matched by the character class `[a-f0-9\-]` under
`re.IGNORECASE`. -/
def isHexDashChar (c : Char) : Bool :=
  ('a' ≤ c && c ≤ 'f') || ('A' ≤ c && c ≤ 'F') || ('0' ≤ c && c ≤ '9') || c = '-'

/-- Characters matched by the regex class `\s` (the ASCII whitespace
characters; the prompt/output text relevant here is ASCII). -/
def isSpaceChar (c : Char) : Bool :=
  c = ' ' || c = '\t' || c = '\n' || c = '\r' || c = '\x0b' || c = '\x0c'

/-- Attempt to match `CODEx_SESSION_PATTERN = session id:\s+([a-f0-9\-]{36})`
(case-insensitive) at the head of `cs`, returning capture group 1.  The
whitespace run and the id character class are disjoint, so the greedy `\s+`
never backtracks. -/
def extractAt (cs : List Char) : Option String :=
  let marker := "session id:".toList
  if (cs.take marker.length).map Char.toLower = marker then
    let rest := cs.drop marker.length
    let ws := rest.takeWhile isSpaceChar
    if ws.isEmpty then none
    else
      let body := rest.drop ws.length
      let idChars := body.take 36
      if idChars.length = 36 && idChars.all isHexDashChar then
        some (String.mk idChars)
      else none
  else none

/-- `CODEx_SESSION_PATTERN.search`: leftmost match of the session-id marker
pattern over the combined output. -/
def searchSession : List Char → Option String
  | [] => none
  | c :: rest =>
    match extractAt (c :: rest) with
    | some s => some s
    | none => searchSession rest

namespace ClaudeSessionManager

/-- `ClaudeSessionManager.execute_job`.  Raising `ValueError` for a missing
`thread_id` is the `Except.error` case; otherwise the structured result and
the session store after the run are returned. -/
def execute_job (store : SessionStore) (device_id room_id : String)
    (continue_session : Bool) (thread_id : Option String)
    (freshUuid : String) (proc : ProcResult) :
    Except String ExecResult × SessionStore :=
  match thread_id with
  | none => (Except.error "thread_id is required for session management", store)
  | some tid =>
    let key : SessionKey := ⟨device_id, room_id, "claude", tid⟩
    let looked := if continue_session then lookupSession store key else none
    let sid := looked.getD freshUuid
    match proc with
    | ProcResult.timeout =>
      (Except.ok ⟨false, "", none, "Timeout"⟩, store)
    | ProcResult.fault msg =>
      (Except.ok ⟨false, "", none, msg⟩, store)
    | ProcResult.completed rc out err =>
      let store1 := if rc == 0 then saveSession store key sid else store
      (Except.ok ⟨rc == 0, out, some sid, err⟩, store1)

end ClaudeSessionManager

namespace CodexSessionManager

/-- The combined output `f"{stdout}\n{stderr}" if stderr else stdout`. -/
def combinedOutput (stdout stderr : String) : String :=
  if stderr ≠ "" then stdout ++ "\n" ++ stderr else stdout

/-- `CodexSessionManager.execute_job`. -/
def execute_job (store : SessionStore) (device_id room_id : String)
    (continue_session : Bool) (thread_id : Option String)
    (proc : ProcResult) :
    Except String ExecResult × SessionStore :=
  match thread_id with
  | none => (Except.error "thread_id is required for session management", store)
  | some tid =>
    let key : SessionKey := ⟨device_id, room_id, "codex", tid⟩
    let sid := if continue_session then lookupSession store key else none
    match proc with
    | ProcResult.timeout =>
      (Except.ok ⟨false, "", none, "Timeout"⟩, store)
    | ProcResult.fault msg =>
      (Except.ok ⟨false, "", none, msg⟩, store)
    | ProcResult.completed rc out err =>
      let extracted : Option String :=
        if rc == 0 then searchSession (combinedOutput out err).toList else none
      let store1 :=
        match extracted with
        | some x => saveSession store key x
        | none => store
      (Except.ok ⟨rc == 0, out, extracted.orElse (fun _ => sid), err⟩, store1)

end CodexSessionManager

namespace GeminiSessionManager

/-- `GeminiSessionManager.execute_job`. -/
def execute_job (store : SessionStore) (device_id room_id : String)
    (continue_session : Bool) (thread_id : Option String)
    (freshUuid : String) (proc : ProcResult) :
    Except String ExecResult × SessionStore :=
  match thread_id with
  | none => (Except.error "thread_id is required for session management", store)
  | some tid =>
    let key : SessionKey := ⟨device_id, room_id, "gemini", tid⟩
    let sid := if continue_session then lookupSession store key else none
    match proc with
    | ProcResult.timeout =>
      (Except.ok ⟨false, "", none, "Timeout"⟩, store)
    | ProcResult.fault msg =>
      (Except.ok ⟨false, "", none, msg⟩, store)
    | ProcResult.completed rc out err =>
      if rc == 0 && sid.isNone then
        (Except.ok ⟨rc == 0, out, some freshUuid, err⟩,
          saveSession store key freshUuid)
      else
        (Except.ok ⟨rc == 0, out, sid, err⟩, store)

end GeminiSessionManager

namespace SessionManager

/-- `SessionManager.execute_job`: dispatch on the runner name; an unknown
runner raises `ValueError` (the `Except.error` case). -/
def execute_job (store : SessionStore) (runner : String)
    (device_id room_id : String) (continue_session : Bool)
    (thread_id : Option String) (freshUuid : String) (proc : ProcResult) :
    Except String ExecResult × SessionStore :=
  if runner = "claude" then
    ClaudeSessionManager.execute_job store device_id room_id
      continue_session thread_id freshUuid proc
  else if runner = "codex" then
    CodexSessionManager.execute_job store device_id room_id
      continue_session thread_id proc
  else if runner = "gemini" then
    GeminiSessionManager.execute_job store device_id room_id
      continue_session thread_id freshUuid proc
  else
    (Except.error ("Unknown runner: " ++ runner), store)

end SessionManager

/-- A row of the `jobs` table (the columns `_execute_job` reads or writes;
times are clock ticks). -/
structure JobRec where
  id : String
  runner : String
  input_text : String
  device_id : String
  room_id : String
  thread_id : Option String
  status : String
  exit_code : Option Int
  stdout : Option String
  stderr : Option String
  started_at : Option Nat
  finished_at : Option Nat
  notify_token : Option String
  created_at : Nat
deriving DecidableEq, Repr

/-- The JSON text stored in the `Thread.unread_runners` column: NULL or the
empty string (falsy in Python), a text `json.loads` rejects, or the dump of
a list of runner names. -/
inductive UnreadField where
  | nullv
  | malformed
  | list (runners : List String)
deriving DecidableEq, Repr

/-- The parse performed by `_execute_job`: falsy and unparsable texts both
yield the empty list. -/
def UnreadField.parse : UnreadField → List String
  | UnreadField.nullv => []
  | UnreadField.malformed => []
  | UnreadField.list l => l

/-- A row of the `threads` table (the columns this core touches). -/
structure ThreadRec where
  id : String
  room_id : String
  name : String
  device_id : String
  has_unread : Bool
  unread_runners : UnreadField
deriving DecidableEq, Repr

/-- A row of the `rooms` table (the columns this core touches). -/
structure RoomRec where
  id : String
  name : String
  device_id : String
deriving DecidableEq, Repr

/-- The relational store seen through `SessionLocal()`. -/
structure Store where
  jobs : List JobRec
  threads : List ThreadRec
  rooms : List RoomRec
  sessions : SessionStore
deriving DecidableEq, Repr

/-- `query(Job).filter_by(id=job_id).first()`. -/
def Store.findJob (s : Store) (jobId : String) : Option JobRec :=
  s.jobs.find? (fun j => j.id == jobId)

/-- `query(Thread).filter_by(id=thread_id).first()` (a `filter_by` with
`id=None` finds nothing since `id` is a non-null primary key). -/
def Store.findThread (s : Store) (threadId : Option String) : Option ThreadRec :=
  match threadId with
  | none => none
  | some tid => s.threads.find? (fun t => t.id == tid)

/-- `query(Room).filter_by(id=room_id).first()`. -/
def Store.findRoom (s : Store) (roomId : String) : Option RoomRec :=
  s.rooms.find? (fun r => r.id == roomId)

/-- ORM in-place update of a job row (rows are keyed by primary key). -/
def Store.setJob (s : Store) (j : JobRec) : Store :=
  { s with jobs := s.jobs.map (fun x => if x.id == j.id then j else x) }

/-- ORM in-place update of a thread row. -/
def Store.setThread (s : Store) (t : ThreadRec) : Store :=
  { s with threads := s.threads.map (fun x => if x.id == t.id then t else x) }

/-- The badge-count query:
`query(Thread).join(Room).filter(Room.device_id == device, Thread.has_unread == True).count()`. -/
def badgeCount (s : Store) (device : String) : Nat :=
  (s.threads.filter (fun t =>
    t.has_unread &&
      s.rooms.any (fun r => r.id == t.room_id && r.device_id == device))).length

/-- Observable steps of `JobManager._execute_job`, in program order:
ORM status assignments, `db.flush` / `db.commit` (the commit carries the
snapshot it makes durable), the two `_broadcast_job_event` calls and the
stream-close signal, the badge-count query evaluation, and the
`_send_notification_via_vps` attempt. -/
inductive Event where
  | setStatus (jobId status : String)
  | flush
  | commit (snapshot : Store)
  | broadcastRunning (jobId : String) (started_at : Nat)
  | broadcastTerminal (jobId status : String) (finished_at : Nat) (exit_code : Int)
  | closeStream (jobId : String)
  | badgeEval (device : String) (count : Nat)
  | notify (token title body : String) (badge : Nat)
deriving DecidableEq, Repr

/-- Whether an event is a notification attempt. -/
def Event.isNotify : Event → Bool
  | Event.notify _ _ _ _ => true
  | _ => false

/-- A status assignment, when the event is one. -/
def Event.statusOf : Event → Option String
  | Event.setStatus _ st => some st
  | _ => none

namespace JobManager

/-- The unread bookkeeping block (both the success and the error copies):
parse `unread_runners`, append the runner if absent, store the dump and set
`has_unread`. -/
def markUnread (s : Store) (thread_id : Option String) (runner : String) : Store :=
  match s.findThread thread_id with
  | none => s
  | some th =>
    let lst := th.unread_runners.parse
    let lst1 := if runner ∈ lst then lst else lst ++ [runner]
    s.setThread { th with unread_runners := UnreadField.list lst1, has_unread := true }

/-- The shared tail of both terminal branches of `_execute_job`: write the
terminal job row, run the unread bookkeeping, flush, evaluate the badge
count, commit, broadcast the terminal payload with stream close, and attempt
the push notification when the job carries a token.  `title` is
`"推論完了"` on the non-exception path and `"推論失敗"` on the exception
path. -/
def finalizeJob (s : Store) (job1 : JobRec) (title : String) :
    Store × List Event :=
  let sJob := s.setJob job1
  let sThr := markUnread sJob job1.thread_id job1.runner
  let badge := badgeCount sThr job1.device_id
  let evs :=
    [Event.setStatus job1.id job1.status,
     Event.flush,
     Event.badgeEval job1.device_id badge,
     Event.commit sThr,
     Event.broadcastTerminal job1.id job1.status (job1.finished_at.getD 0)
       (job1.exit_code.getD 1),
     Event.closeStream job1.id]
  let evNotify :=
    match job1.notify_token with
    | none => []
    | some tok =>
      let roomName := ((sThr.findRoom job1.room_id).map RoomRec.name).getD "Unknown"
      let threadName := ((sThr.findThread job1.thread_id).map ThreadRec.name).getD "Default"
      [Event.notify tok title (roomName ++ "/" ++ threadName ++ " - " ++ job1.runner) badge]
  (sThr, evs ++ evNotify)

/-- `JobManager._execute_job`: the `ProcResult`, the fresh UUID and the two
`utcnow()` readings are explicit parameters.  An exception escaping the
runner call (missing `thread_id`, unknown runner) lands in the
`except` branch, which forces the job to `failed` with stderr
`"Internal error"`. -/
def execute_job (s : Store) (jobId : String) (freshUuid : String)
    (proc : ProcResult) (tStart tFinish : Nat) : Store × List Event :=
  match s.findJob jobId with
  | none => (s, [])
  | some job =>
    let jobRun := { job with status := "running", started_at := some tStart }
    let s1 := s.setJob jobRun
    let evHead :=
      [Event.setStatus jobId "running",
       Event.commit s1,
       Event.broadcastRunning jobId tStart]
    let runnerRes := SessionManager.execute_job s1.sessions jobRun.runner
      jobRun.device_id jobRun.room_id true jobRun.thread_id freshUuid proc
    let s2 := { s1 with sessions := runnerRes.2 }
    match runnerRes.1 with
    | Except.ok r =>
      let jobDone :=
        if r.success then
          { jobRun with
            status := "success", exit_code := some 0,
            stdout := some r.output, stderr := some "",
            finished_at := some tFinish }
        else
          { jobRun with
            status := "failed", exit_code := some 1,
            stdout := some r.output, stderr := some r.error,
            finished_at := some tFinish }
      let tail := finalizeJob s2 jobDone "推論完了"
      (tail.1, evHead ++ tail.2)
    | Except.error _ =>
      let jobDone :=
        { jobRun with
          status := "failed", exit_code := some 1,
          stderr := some "Internal error", finished_at := some tFinish }
      let tail := finalizeJob s2 jobDone "推論失敗"
      (tail.1, evHead ++ tail.2)

/-- `JobManager.create_job`: insert the `queued` row, commit, then either
hand execution to the background-task facility or run it synchronously; the
returned snapshot is `to_dict()` of the in-memory object created before
execution. -/
def create_job (s : Store) (jobId runner input_text device_id room_id : String)
    (thread_id notify_token : Option String) (hasBackground : Bool)
    (freshUuid : String) (proc : ProcResult) (tCreate tStart tFinish : Nat) :
    JobRec × Store × List Event :=
  let job : JobRec :=
    { id := jobId, runner := runner, input_text := input_text,
      device_id := device_id, room_id := room_id, thread_id := thread_id,
      status := "queued", exit_code := none, stdout := none,
      stderr := none, started_at := none, finished_at := none,
      notify_token := notify_token, created_at := tCreate }
  let s1 : Store := { s with jobs := s.jobs ++ [job] }
  if hasBackground then
    (job, s1, [])
  else
    let run := execute_job s1 jobId freshUuid proc tStart tFinish
    (job, run.1, run.2)

end JobManager

/-- An element placed on a subscriber's `asyncio.Queue`: a per-job status
payload (`broadcast`), a `{event, data}` envelope (`broadcast_event`), or
the `None` close signal (`close`). -/
inductive QueueItem (α : Type) where
  | payload (p : α)
  | envelope (event : String) (data : α)
  | closeSig
deriving DecidableEq, Repr

/-- The mutable state of `SSEManager`: per-job subscription queues
(`_connections`), global subscriber queues (`_global_subscribers`), and the
per-event-name rate-limit timestamps (`_event_rate_limits`, `time.time()`
values as rationals).  A queue is modelled by its list of queued items. -/
structure SSEState (α : Type) where
  connections : List (String × List (List (QueueItem α)))
  globals : List (List (QueueItem α))
  rateLimits : List (String × Rat)
deriving DecidableEq, Repr

/-- `self._event_rate_limits[event_name] = now`: dict assignment. -/
def updateRateLimit : List (String × Rat) → String → Rat → List (String × Rat)
  | [], name, t => [(name, t)]
  | e :: rest, name, t =>
    if e.1 == name then (name, t) :: rest else e :: updateRateLimit rest name t

/-- Put `item` on each queue of a list, counting the puts (the inner
`for queue in list(connections): await queue.put(...); sent_count += 1`). -/
def deliverToQueues {α : Type} (item : QueueItem α) :
    List (List (QueueItem α)) → List (List (QueueItem α)) × Nat
  | [] => ([], 0)
  | q :: rest =>
    let tail := deliverToQueues item rest
    ((q ++ [item]) :: tail.1, tail.2 + 1)

/-- Put `item` on every queue of every job's connection set, counting the
puts (the outer `for job_id, connections in self._connections.items()`). -/
def deliverToConnections {α : Type} (item : QueueItem α) :
    List (String × List (List (QueueItem α))) →
    List (String × List (List (QueueItem α))) × Nat
  | [] => ([], 0)
  | (jid, qs) :: rest =>
    let here := deliverToQueues item qs
    let tail := deliverToConnections item rest
    ((jid, here.1) :: tail.1, here.2 + tail.2)

namespace SSEManager

/-- `self._event_rate_limits.get(event_name, 0)`. -/
def lastBroadcastTime {α : Type} (st : SSEState α) (event_name : String) : Rat :=
  ((st.rateLimits.find? (fun e => e.1 == event_name)).map (fun e => e.2)).getD 0

/-- `SSEManager.broadcast_event(event_name, payload, rate_limit_seconds)`
at wall time `now`, returning the recipient count and the new state. -/
def broadcast_event {α : Type} (st : SSEState α) (event_name : String)
    (payload : α) (rate_limit_seconds : Rat) (now : Rat) :
    Nat × SSEState α :=
  let last := lastBroadcastTime st event_name
  if now - last < rate_limit_seconds then
    (0, st)
  else
    let limits1 := updateRateLimit st.rateLimits event_name now
    let wrapped := QueueItem.envelope event_name payload
    let jobPart := deliverToConnections wrapped st.connections
    let globalPart := deliverToQueues wrapped st.globals
    (jobPart.2 + globalPart.2, ⟨jobPart.1, globalPart.1, limits1⟩)

/-- Total number of currently open subscription queues (job plus global). -/
def totalQueues {α : Type} (st : SSEState α) : Nat :=
  (st.connections.map (fun e => e.2.length)).sum + st.globals.length

end SSEManager

/-- Whether an event is the badge-count evaluation. -/
def Event.isBadgeEval : Event → Bool
  | Event.badgeEval _ _ => true
  | _ => false

/-- Whether an event is a durable commit whose committed snapshot already
carries the unread flag for the given thread. -/
def commitHasUnread (threadId : String) : Event → Bool
  | Event.commit snap =>
    match snap.threads.find? (fun t => t.id == threadId) with
    | some th => th.has_unread
    | none => false
  | _ => false

/-- Whether some badge-count evaluation occurs strictly after some commit
that already carries the unread flag for the given thread — the temporal
shape a "badge computed after the unread mutation is durably committed"
execution would exhibit. -/
def badgeAfterUnreadCommit (threadId : String) : List Event → Bool
  | [] => false
  | e :: rest =>
    (commitHasUnread threadId e && rest.any Event.isBadgeEval) ||
      badgeAfterUnreadCommit threadId rest

/-- A concrete queued job used to evaluate the theorems on explicit
inputs. -/
def sampleJob : JobRec :=
  { id := "j1", runner := "claude", input_text := "p", device_id := "d1",
    room_id := "r1", thread_id := some "t1", status := "queued",
    exit_code := none, stdout := none, stderr := none, started_at := none,
    finished_at := none, notify_token := some "tok1", created_at := 0 }

/-- The same job for the codex backend. -/
def sampleJobCodex : JobRec := { sampleJob with runner := "codex" }

/-- A concrete thread with no unread runners. -/
def sampleThread : ThreadRec := ⟨"t1", "r1", "T", "d1", false, UnreadField.list []⟩

/-- A concrete room owned by device `d1`. -/
def sampleRoom : RoomRec := ⟨"r1", "R", "d1"⟩

/-- A concrete store holding the sample job, thread and room. -/
def sampleStore : Store := ⟨[sampleJob], [sampleThread], [sampleRoom], []⟩

/-- The sample store with the codex job instead. -/
def sampleStoreCodex : Store := ⟨[sampleJobCodex], [sampleThread], [sampleRoom], []⟩

/-!
## Helper lemmas
-/

/-- Replacing, by key, the (unique) found element of a list: `find?` then
returns the replacement. -/
theorem find?_map_replaceKey {β : Type} (key : β → String) (l : List β)
    (k : String) (old new : β)
    (h : l.find? (fun x => key x == k) = some old) (hid : key new = key old) :
    (l.map (fun x => if key x == key new then new else x)).find?
      (fun x => key x == k) = some new := by
  have hOldEq : key old = k := by
    have := List.find?_some h
    simpa using this
  induction l with
  | nil => simp at h
  | cons a rest ih =>
    by_cases ha : key a = k
    · have haold : a = old := by
        rw [List.find?_cons_of_pos _ (by simpa using ha)] at h
        simpa using h
      subst haold
      simp only [List.map_cons]
      have hf : (if (key a == key new) = true then new else a) = new := by
        simp [hid, ha, hOldEq]
      rw [hf]
      exact List.find?_cons_of_pos _ (by simp [hid, hOldEq])
    · have hrest : rest.find? (fun x => key x == k) = some old := by
        rw [List.find?_cons_of_neg _ (by simpa using ha)] at h
        exact h
      simp only [List.map_cons]
      have hf : (if (key a == key new) = true then new else a) = a := by
        have hne : key a ≠ key new := by
          rw [hid, hOldEq]
          exact ha
        simp [hne]
      rw [hf]
      rw [List.find?_cons_of_neg _ (by simpa using ha)]
      exact ih hrest

/-- `deliverToQueues` appends the item to every queue and counts the
queues. -/
theorem deliverToQueues_spec {α : Type} (item : QueueItem α)
    (qs : List (List (QueueItem α))) :
    deliverToQueues item qs = (qs.map (fun q => q ++ [item]), qs.length) := by
  induction qs with
  | nil => rfl
  | cons q rest ih =>
    simp [deliverToQueues, ih]

/-- `deliverToConnections` appends the item to every queue of every job and
counts all the queues. -/
theorem deliverToConnections_spec {α : Type} (item : QueueItem α)
    (cs : List (String × List (List (QueueItem α)))) :
    deliverToConnections item cs =
      (cs.map (fun e => (e.1, e.2.map (fun q => q ++ [item]))),
       (cs.map (fun e => e.2.length)).sum) := by
  induction cs with
  | nil => rfl
  | cons c rest ih =>
    simp [deliverToConnections, deliverToQueues_spec, ih]

/-- C6. For every event name, a `broadcast_event` call made while less than
`rate_limit_seconds` have elapsed since the stored last-broadcast time of
that name delivers nothing, reports zero recipients, and leaves the state
(including the stored timestamp) unchanged; otherwise it appends the
`{event, data}` envelope to every job subscription queue and every global
subscription queue, reports the total number of queues reached, and updates
the stored timestamp for that name. -/
theorem claim_C6_broadcast_event_rate_limit {α : Type} (st : SSEState α)
    (event_name : String) (payload : α) (rate_limit_seconds now : Rat) :
    SSEManager.broadcast_event st event_name payload rate_limit_seconds now =
      if now - SSEManager.lastBroadcastTime st event_name < rate_limit_seconds then
        (0, st)
      else
        (SSEManager.totalQueues st,
         ⟨st.connections.map
            (fun e => (e.1, e.2.map (fun q => q ++ [QueueItem.envelope event_name payload]))),
          st.globals.map (fun q => q ++ [QueueItem.envelope event_name payload]),
          updateRateLimit st.rateLimits event_name now⟩) := by
  unfold SSEManager.broadcast_event SSEManager.totalQueues
  by_cases hrl : now - SSEManager.lastBroadcastTime st event_name < rate_limit_seconds
  · simp [hrl]
  · simp [hrl, deliverToQueues_spec, deliverToConnections_spec]

/-- C1. For each backend, a timed-out execution returns
`{success: false, session_id: null, error: "Timeout"}`, a faulted launch
returns `{success: false, session_id: null, error: <fault message>}`, and in
both cases the Session Directory is left unchanged; moreover a completed
process with a nonzero exit status never changes the Session Directory, so a
session identifier is written only on exit status zero. -/
theorem claim_C1_failed_runs_session_neutral (store : SessionStore)
    (device room tid freshUuid msg : String) (cont : Bool)
    (rc : Int) (out err : String) (hrc : rc ≠ 0) :
    (SessionManager.execute_job store "claude" device room cont (some tid)
        freshUuid ProcResult.timeout
      = (Except.ok ⟨false, "", none, "Timeout"⟩, store))
  ∧ (SessionManager.execute_job store "codex" device room cont (some tid)
        freshUuid ProcResult.timeout
      = (Except.ok ⟨false, "", none, "Timeout"⟩, store))
  ∧ (SessionManager.execute_job store "gemini" device room cont (some tid)
        freshUuid ProcResult.timeout
      = (Except.ok ⟨false, "", none, "Timeout"⟩, store))
  ∧ (SessionManager.execute_job store "claude" device room cont (some tid)
        freshUuid (ProcResult.fault msg)
      = (Except.ok ⟨false, "", none, msg⟩, store))
  ∧ (SessionManager.execute_job store "codex" device room cont (some tid)
        freshUuid (ProcResult.fault msg)
      = (Except.ok ⟨false, "", none, msg⟩, store))
  ∧ (SessionManager.execute_job store "gemini" device room cont (some tid)
        freshUuid (ProcResult.fault msg)
      = (Except.ok ⟨false, "", none, msg⟩, store))
  ∧ ((SessionManager.execute_job store "claude" device room cont (some tid)
        freshUuid (ProcResult.completed rc out err)).2 = store)
  ∧ ((SessionManager.execute_job store "codex" device room cont (some tid)
        freshUuid (ProcResult.completed rc out err)).2 = store)
  ∧ ((SessionManager.execute_job store "gemini" device room cont (some tid)
        freshUuid (ProcResult.completed rc out err)).2 = store) := by
  have hbeq : (rc == 0) = false := by
    simpa using hrc
  refine ⟨?_, ?_, ?_, ?_, ?_, ?_, ?_, ?_, ?_⟩ <;>
    simp [SessionManager.execute_job, ClaudeSessionManager.execute_job,
      CodexSessionManager.execute_job, GeminiSessionManager.execute_job, hbeq]

/-- Witness for C1 at a concrete input (the claude/timeout conjunct,
with the hypothesis `rc ≠ 0` discharged at `rc = 7`). -/
theorem claim_C1_failed_runs_session_neutral_witness :
    SessionManager.execute_job [] "claude" "d1" "r1" true (some "t1")
        "u1" ProcResult.timeout
      = (Except.ok ⟨false, "", none, "Timeout"⟩, ([] : SessionStore)) :=
  (claim_C1_failed_runs_session_neutral [] "d1" "r1" "t1" "u1" "m" true
    7 "o" "e" (by decide)).1

/-- C8. Every runner strategy called without a conversation (thread) id
fails immediately (the `ValueError` precondition violation), with a result
independent of the external process — no process is spawned — and with the
Session Directory unchanged; and with a conversation id present, every
execution fault is reported as a structured `{success, output, session_id,
error}` result rather than raised past the strategy contract. -/
theorem claim_C8_strategy_contract (store : SessionStore)
    (device room tid freshUuid : String) (cont : Bool) (proc : ProcResult) :
    (ClaudeSessionManager.execute_job store device room cont none freshUuid proc
      = (Except.error "thread_id is required for session management", store))
  ∧ (CodexSessionManager.execute_job store device room cont none proc
      = (Except.error "thread_id is required for session management", store))
  ∧ (GeminiSessionManager.execute_job store device room cont none freshUuid proc
      = (Except.error "thread_id is required for session management", store))
  ∧ (∃ r, (ClaudeSessionManager.execute_job store device room cont (some tid)
      freshUuid proc).1 = Except.ok r)
  ∧ (∃ r, (CodexSessionManager.execute_job store device room cont (some tid)
      proc).1 = Except.ok r)
  ∧ (∃ r, (GeminiSessionManager.execute_job store device room cont (some tid)
      freshUuid proc).1 = Except.ok r) := by
  refine ⟨rfl, rfl, rfl, ?_, ?_, ?_⟩ <;>
    cases proc <;>
      first
      | exact ⟨_, rfl⟩
      | (simp only [ClaudeSessionManager.execute_job,
           CodexSessionManager.execute_job, GeminiSessionManager.execute_job]
         repeat' split
         all_goals exact ⟨_, rfl⟩)

/-- C4 counterexample. A first execution for a fresh codex key that
succeeds (exit status zero) but whose output carries no `session id:`
marker creates no Session Directory record: the claim "created on the
first successful execution for that key … for all three backends" fails. -/
theorem claim_C4_counterexample :
    ((CodexSessionManager.execute_job [] "d1" "r1" true (some "t1")
        (ProcResult.completed 0 "done" "")).1
      = Except.ok ⟨true, "done", none, ""⟩)
  ∧ ((CodexSessionManager.execute_job [] "d1" "r1" true (some "t1")
        (ProcResult.completed 0 "done" "")).2 = ([] : SessionStore))
  ∧ lookupSession
      ((CodexSessionManager.execute_job [] "d1" "r1" true (some "t1")
        (ProcResult.completed 0 "done" "")).2)
      ⟨"d1", "r1", "codex", "t1"⟩ = none := by
  refine ⟨rfl, by decide, by decide⟩

/-- C4 (amended). Session Directory write policy per backend: claude
creates the record on the first successful execution (with the freshly
generated identifier) and overwrites it on every subsequent successful
execution (with the resumed identifier); codex writes the record exactly on
successful executions whose combined output contains a parsable session id,
and leaves the store untouched otherwise; gemini creates the record on the
first successful execution and leaves it unchanged on subsequent successful
executions. -/
theorem claim_C4_session_record_lifecycle (s1 s2 : SessionStore)
    (device room tid fresh out err out2 err2 oldC oldG sid36 : String)
    (hC1 : lookupSession s1 ⟨device, room, "claude", tid⟩ = none)
    (hG1 : lookupSession s1 ⟨device, room, "gemini", tid⟩ = none)
    (hC2 : lookupSession s2 ⟨device, room, "claude", tid⟩ = some oldC)
    (hG2 : lookupSession s2 ⟨device, room, "gemini", tid⟩ = some oldG)
    (hmatch : searchSession (CodexSessionManager.combinedOutput out err).toList
      = some sid36)
    (hnomatch : searchSession (CodexSessionManager.combinedOutput out2 err2).toList
      = none) :
    ((ClaudeSessionManager.execute_job s1 device room true (some tid) fresh
        (ProcResult.completed 0 out err)).2
      = saveSession s1 ⟨device, room, "claude", tid⟩ fresh)
  ∧ ((ClaudeSessionManager.execute_job s2 device room true (some tid) fresh
        (ProcResult.completed 0 out err)).2
      = saveSession s2 ⟨device, room, "claude", tid⟩ oldC)
  ∧ ((CodexSessionManager.execute_job s1 device room true (some tid)
        (ProcResult.completed 0 out err)).2
      = saveSession s1 ⟨device, room, "codex", tid⟩ sid36)
  ∧ ((CodexSessionManager.execute_job s2 device room true (some tid)
        (ProcResult.completed 0 out err)).2
      = saveSession s2 ⟨device, room, "codex", tid⟩ sid36)
  ∧ ((CodexSessionManager.execute_job s1 device room true (some tid)
        (ProcResult.completed 0 out2 err2)).2 = s1)
  ∧ ((CodexSessionManager.execute_job s2 device room true (some tid)
        (ProcResult.completed 0 out2 err2)).2 = s2)
  ∧ ((GeminiSessionManager.execute_job s1 device room true (some tid) fresh
        (ProcResult.completed 0 out err)).2
      = saveSession s1 ⟨device, room, "gemini", tid⟩ fresh)
  ∧ ((GeminiSessionManager.execute_job s2 device room true (some tid) fresh
        (ProcResult.completed 0 out err)).2 = s2) := by
  have hm : searchSession (CodexSessionManager.combinedOutput out err).data
      = some sid36 := hmatch
  have hnm : searchSession (CodexSessionManager.combinedOutput out2 err2).data
      = none := hnomatch
  refine ⟨?_, ?_, ?_, ?_, ?_, ?_, ?_, ?_⟩ <;>
    simp [ClaudeSessionManager.execute_job, CodexSessionManager.execute_job,
      GeminiSessionManager.execute_job, hC1, hG1, hC2, hG2, hm, hnm]

/-- Witness for C4 (amended) at concrete inputs (the claude first-execution
conjunct; all lookup and pattern-match hypotheses discharged by
evaluation). -/
theorem claim_C4_session_record_lifecycle_witness :
    (ClaudeSessionManager.execute_job [] "d" "r" true (some "t") "u"
        (ProcResult.completed 0
          "session id: 0123456789abcdef0123456789abcdef0123" "")).2
      = saveSession [] ⟨"d", "r", "claude", "t"⟩ "u" :=
  (claim_C4_session_record_lifecycle []
    [(⟨"d", "r", "claude", "t"⟩, "c0"), (⟨"d", "r", "codex", "t"⟩, "x0"),
     (⟨"d", "r", "gemini", "t"⟩, "g0")]
    "d" "r" "t" "u"
    "session id: 0123456789abcdef0123456789abcdef0123" ""
    "done" "" "c0" "g0"
    "0123456789abcdef0123456789abcdef0123"
    (by decide) (by decide) (by decide) (by decide) (by decide) (by decide)).1

/-- `setJob` leaves the threads, rooms and sessions untouched. -/
theorem setJob_findThread (s : Store) (j : JobRec) (t : Option String) :
    (s.setJob j).findThread t = s.findThread t := by
  cases t <;> rfl

/-- `setThread` leaves the jobs untouched. -/
theorem setThread_findJob (s : Store) (t : ThreadRec) (q : String) :
    (s.setThread t).findJob q = s.findJob q := rfl

/-- `markUnread` touches only the threads table. -/
theorem markUnread_findJob (s : Store) (tid : Option String) (rn q : String) :
    (JobManager.markUnread s tid rn).findJob q = s.findJob q := by
  unfold JobManager.markUnread
  cases h : s.findThread tid <;> rfl

/-- After `setJob`, looking the job up returns the replacement. -/
theorem findJob_setJob (s : Store) (jobId : String) (job jnew : JobRec)
    (hj : s.findJob jobId = some job) (hid : jnew.id = job.id) :
    (s.setJob jnew).findJob jobId = some jnew := by
  unfold Store.findJob Store.setJob at *
  exact find?_map_replaceKey JobRec.id s.jobs jobId job jnew hj hid

/-- After `setThread`, looking the thread up returns the replacement. -/
theorem findThread_setThread (s : Store) (tid : String) (th tnew : ThreadRec)
    (ht : s.findThread (some tid) = some th) (hid : tnew.id = th.id) :
    (s.setThread tnew).findThread (some tid) = some tnew := by
  unfold Store.findThread Store.setThread at *
  exact find?_map_replaceKey ThreadRec.id s.threads tid th tnew ht hid

/-- After `finalizeJob`, looking the job up returns the terminal job row. -/
theorem finalizeJob_findJob (s : Store) (j : JobRec) (title q : String)
    (job0 : JobRec) (h : s.findJob q = some job0) (hid : j.id = job0.id) :
    (JobManager.finalizeJob s j title).1.findJob q = some j := by
  unfold JobManager.finalizeJob
  simp only []
  rw [markUnread_findJob]
  exact findJob_setJob _ _ _ _ h hid

/-- C9. When the runner strategy returns a structured result, a job that
ends in `success` has its stored stderr blanked to the empty string — even
when the result carried a non-empty error string — while a job that ends in
`failed` stores the runner's captured stderr. -/
theorem claim_C9_success_blanks_stderr (s : Store) (jobId freshUuid : String)
    (proc : ProcResult) (tStart tFinish : Nat) (job : JobRec)
    (r : ExecResult) (sess2 : SessionStore)
    (hj : s.findJob jobId = some job)
    (hr : SessionManager.execute_job s.sessions job.runner job.device_id
      job.room_id true job.thread_id freshUuid proc = (Except.ok r, sess2)) :
    ∃ jf,
      (JobManager.execute_job s jobId freshUuid proc tStart tFinish).1.findJob
          jobId = some jf
      ∧ (r.success = true → jf.status = "success" ∧ jf.stderr = some "")
      ∧ (r.success = false → jf.status = "failed" ∧ jf.stderr = some r.error) := by
  unfold JobManager.execute_job
  rw [hj]
  simp only [Store.setJob, hr]
  cases hs : r.success with
  | true =>
    simp only [hs, eq_self_iff_true, if_true, Bool.true_eq_false]
    exact ⟨_,
      finalizeJob_findJob _ _ _ _ _
        (findJob_setJob ⟨s.jobs, s.threads, s.rooms, sess2⟩ jobId job
          { job with status := "running", started_at := some tStart } hj rfl) rfl,
      fun _ => ⟨rfl, rfl⟩, fun h => h.elim⟩
  | false =>
    simp only [hs, Bool.false_eq_true, if_false, eq_self_iff_true]
    exact ⟨_,
      finalizeJob_findJob _ _ _ _ _
        (findJob_setJob ⟨s.jobs, s.threads, s.rooms, sess2⟩ jobId job
          { job with status := "running", started_at := some tStart } hj rfl) rfl,
      fun h => h.elim, fun _ => ⟨rfl, rfl⟩⟩

/-- The store component of `finalizeJob` is the unread bookkeeping applied
after the terminal job write. -/
theorem finalizeJob_fst (s : Store) (j : JobRec) (title : String) :
    (JobManager.finalizeJob s j title).1
      = JobManager.markUnread (s.setJob j) j.thread_id j.runner := rfl

/-- `markUnread` on an existing thread sets the unread flag and appends the
runner to the parsed unread list exactly when it is absent. -/
theorem markUnread_findThread (s : Store) (tid rn : String) (th : ThreadRec)
    (ht : s.findThread (some tid) = some th) :
    (JobManager.markUnread s (some tid) rn).findThread (some tid)
      = some { th with
          unread_runners := UnreadField.list
            (if rn ∈ th.unread_runners.parse then th.unread_runners.parse
             else th.unread_runners.parse ++ [rn]),
          has_unread := true } := by
  unfold JobManager.markUnread
  rw [ht]
  simp only []
  exact findThread_setThread s tid th _ ht rfl

/-- C5. For every job execution reaching a terminal state whose job has a
conversation (thread) id naming an existing thread, the runner name is
added to that thread's unread-runner set exactly when absent (adding an
already-present runner leaves the list unchanged) and the unread flag is
set; in particular a thread with zero unread runners ends with exactly
`[runner]`. -/
theorem claim_C5_unread_runner_bookkeeping (s : Store)
    (jobId freshUuid tid : String) (proc : ProcResult) (tStart tFinish : Nat)
    (job : JobRec) (th : ThreadRec)
    (hj : s.findJob jobId = some job)
    (htid : job.thread_id = some tid)
    (ht : s.findThread (some tid) = some th) :
    ∃ t2,
      (JobManager.execute_job s jobId freshUuid proc tStart tFinish).1.findThread
          (some tid) = some t2
      ∧ t2.has_unread = true
      ∧ t2.unread_runners = UnreadField.list
          (if job.runner ∈ th.unread_runners.parse then th.unread_runners.parse
           else th.unread_runners.parse ++ [job.runner]) := by
  unfold JobManager.execute_job
  rw [hj]
  simp only [Store.setJob]
  rcases hres : SessionManager.execute_job s.sessions job.runner job.device_id
      job.room_id true job.thread_id freshUuid proc with ⟨e, sess2⟩
  cases e with
  | ok r =>
    cases hs : r.success with
    | true =>
      simp only [hs, eq_self_iff_true, if_true]
      rw [finalizeJob_fst]
      simp only []
      rw [htid]
      exact ⟨_, markUnread_findThread _ _ _ _ ht, rfl, rfl⟩
    | false =>
      simp only [hs, Bool.false_eq_true, if_false]
      rw [finalizeJob_fst]
      simp only []
      rw [htid]
      exact ⟨_, markUnread_findThread _ _ _ _ ht, rfl, rfl⟩
  | error msg =>
    rw [finalizeJob_fst]
    simp only []
    rw [htid]
    exact ⟨_, markUnread_findThread _ _ _ _ ht, rfl, rfl⟩

/-- Witness for C9 at a concrete input: a claude job whose process exits 0
with stderr `"err2"`; the stored stderr is blank nevertheless. -/
theorem claim_C9_success_blanks_stderr_witness :
    ∃ jf,
      (JobManager.execute_job sampleStore "j1" "u1"
          (ProcResult.completed 0 "out" "err2") 1 2).1.findJob "j1" = some jf
      ∧ ((true : Bool) = true → jf.status = "success" ∧ jf.stderr = some "")
      ∧ ((true : Bool) = false → jf.status = "failed" ∧ jf.stderr = some "err2") :=
  claim_C9_success_blanks_stderr sampleStore "j1" "u1"
    (ProcResult.completed 0 "out" "err2") 1 2 sampleJob
    ⟨true, "out", some "u1", "err2"⟩ [(⟨"d1", "r1", "claude", "t1"⟩, "u1")]
    (by decide) (by rfl)

/-- Witness for C5 at a concrete input: one completed codex job on a thread
with zero unread runners leaves the set `["codex"]` and the flag true. -/
theorem claim_C5_unread_runner_bookkeeping_witness :
    ∃ t2,
      (JobManager.execute_job sampleStoreCodex "j1" "u1"
          (ProcResult.completed 0 "ok" "") 1 2).1.findThread (some "t1")
        = some t2
      ∧ t2.has_unread = true
      ∧ t2.unread_runners = UnreadField.list ["codex"] :=
  claim_C5_unread_runner_bookkeeping sampleStoreCodex "j1" "u1" "t1"
    (ProcResult.completed 0 "ok" "") 1 2 sampleJobCodex sampleThread
    (by decide) (by decide) (by decide)

/-- The event trace of `finalizeJob` contains exactly one status
assignment: the terminal status. -/
theorem finalizeJob_statusTrace (s : Store) (j : JobRec) (title : String) :
    (JobManager.finalizeJob s j title).2.filterMap Event.statusOf
      = [j.status] := by
  unfold JobManager.finalizeJob
  simp only []
  cases h : j.notify_token <;> simp [h, Event.statusOf]

/-- C2. Every found job goes through exactly the status assignments
`running` then `success` (with exit code 0) or `running` then `failed`
(with exit code 1): starting from `queued`, the observed status sequence is
exactly `queued → running → success` or `queued → running → failed`, with
no transition skipped. -/
theorem claim_C2_status_state_machine (s : Store) (jobId freshUuid : String)
    (proc : ProcResult) (tStart tFinish : Nat) (job : JobRec)
    (hj : s.findJob jobId = some job) (hq : job.status = "queued") :
    ∃ jf,
      (JobManager.execute_job s jobId freshUuid proc tStart tFinish).1.findJob
          jobId = some jf
      ∧ ((job.status ::
            (JobManager.execute_job s jobId freshUuid proc tStart
              tFinish).2.filterMap Event.statusOf
              = ["queued", "running", "success"]
          ∧ jf.status = "success" ∧ jf.exit_code = some 0)
        ∨ (job.status ::
            (JobManager.execute_job s jobId freshUuid proc tStart
              tFinish).2.filterMap Event.statusOf
              = ["queued", "running", "failed"]
          ∧ jf.status = "failed" ∧ jf.exit_code = some 1)) := by
  unfold JobManager.execute_job
  rw [hj]
  simp only [Store.setJob]
  rcases hres : SessionManager.execute_job s.sessions job.runner job.device_id
      job.room_id true job.thread_id freshUuid proc with ⟨e, sess2⟩
  cases e with
  | ok r =>
    cases hs : r.success with
    | true =>
      simp only [hs, eq_self_iff_true, if_true]
      refine ⟨_,
        finalizeJob_findJob _ _ _ _ _
          (findJob_setJob ⟨s.jobs, s.threads, s.rooms, sess2⟩ jobId job
            { job with status := "running", started_at := some tStart } hj rfl)
          rfl,
        Or.inl ⟨?_, rfl, rfl⟩⟩
      rw [hq]
      simp [List.filterMap_append, finalizeJob_statusTrace, Event.statusOf]
    | false =>
      simp only [hs, Bool.false_eq_true, if_false]
      refine ⟨_,
        finalizeJob_findJob _ _ _ _ _
          (findJob_setJob ⟨s.jobs, s.threads, s.rooms, sess2⟩ jobId job
            { job with status := "running", started_at := some tStart } hj rfl)
          rfl,
        Or.inr ⟨?_, rfl, rfl⟩⟩
      rw [hq]
      simp [List.filterMap_append, finalizeJob_statusTrace, Event.statusOf]
  | error msg =>
    simp only []
    refine ⟨_,
      finalizeJob_findJob _ _ _ _ _
        (findJob_setJob ⟨s.jobs, s.threads, s.rooms, sess2⟩ jobId job
          { job with status := "running", started_at := some tStart } hj rfl)
        rfl,
      Or.inr ⟨?_, rfl, rfl⟩⟩
    rw [hq]
    simp [List.filterMap_append, finalizeJob_statusTrace, Event.statusOf]

/-- Witness for C2 at a concrete input: the sample claude job with a
successful process run. -/
theorem claim_C2_status_state_machine_witness :
    ∃ jf,
      (JobManager.execute_job sampleStore "j1" "u1"
          (ProcResult.completed 0 "out" "") 1 2).1.findJob "j1" = some jf
      ∧ ((sampleJob.status ::
            (JobManager.execute_job sampleStore "j1" "u1"
              (ProcResult.completed 0 "out" "") 1 2).2.filterMap Event.statusOf
              = ["queued", "running", "success"]
          ∧ jf.status = "success" ∧ jf.exit_code = some 0)
        ∨ (sampleJob.status ::
            (JobManager.execute_job sampleStore "j1" "u1"
              (ProcResult.completed 0 "out" "") 1 2).2.filterMap Event.statusOf
              = ["queued", "running", "failed"]
          ∧ jf.status = "failed" ∧ jf.exit_code = some 1)) :=
  claim_C2_status_state_machine sampleStore "j1" "u1"
    (ProcResult.completed 0 "out" "") 1 2 sampleJob (by decide) (by decide)

/-- C7. For a single job execution the trace is ordered: the running
broadcast sits at index 2, the commit that makes the unread/badge mutations
durable (the final store) at index 6, the terminal broadcast at index 7,
and no notification attempt occurs at or before the terminal broadcast —
so the running broadcast precedes the terminal broadcast, the unread/badge
commit precedes the terminal broadcast, and notification dispatch is
attempted only after it. -/
theorem claim_C7_broadcast_ordering (s : Store)
    (jobId freshUuid tid : String) (proc : ProcResult) (tStart tFinish : Nat)
    (job : JobRec) (th : ThreadRec)
    (hj : s.findJob jobId = some job)
    (htid : job.thread_id = some tid)
    (ht : s.findThread (some tid) = some th) :
    ∃ stv ecode,
      (JobManager.execute_job s jobId freshUuid proc tStart tFinish).2[2]?
          = some (Event.broadcastRunning jobId tStart)
      ∧ (JobManager.execute_job s jobId freshUuid proc tStart tFinish).2[6]?
          = some (Event.commit
              (JobManager.execute_job s jobId freshUuid proc tStart tFinish).1)
      ∧ (JobManager.execute_job s jobId freshUuid proc tStart tFinish).2[7]?
          = some (Event.broadcastTerminal jobId stv tFinish ecode)
      ∧ (((JobManager.execute_job s jobId freshUuid proc tStart
            tFinish).2.take 8).all (fun e => !e.isNotify)) = true
      ∧ ∃ t2,
          (JobManager.execute_job s jobId freshUuid proc tStart
            tFinish).1.findThread (some tid) = some t2
          ∧ t2.has_unread = true := by
  have hid : job.id = jobId := by
    have := List.find?_some hj
    simpa using this
  unfold JobManager.execute_job
  rw [hj]
  simp only [Store.setJob]
  rcases hres : SessionManager.execute_job s.sessions job.runner job.device_id
      job.room_id true job.thread_id freshUuid proc with ⟨e, sess2⟩
  cases e with
  | ok r =>
    cases hs : r.success with
    | true =>
      simp only [hs, eq_self_iff_true, if_true, JobManager.finalizeJob]
      refine ⟨"success", 0, ?_, ?_, ?_, ?_, ?_⟩ <;>
        cases hnt : job.notify_token <;>
          simp [hnt, hid, Event.isNotify]
      all_goals
        rw [htid]
        exact ⟨_, markUnread_findThread _ _ _ _ ht, rfl⟩
    | false =>
      simp only [hs, Bool.false_eq_true, if_false, JobManager.finalizeJob]
      refine ⟨"failed", 1, ?_, ?_, ?_, ?_, ?_⟩ <;>
        cases hnt : job.notify_token <;>
          simp [hnt, hid, Event.isNotify]
      all_goals
        rw [htid]
        exact ⟨_, markUnread_findThread _ _ _ _ ht, rfl⟩
  | error msg =>
    simp only [JobManager.finalizeJob]
    refine ⟨"failed", 1, ?_, ?_, ?_, ?_, ?_⟩ <;>
      cases hnt : job.notify_token <;>
        simp [hnt, hid, Event.isNotify]
    all_goals
      rw [htid]
      exact ⟨_, markUnread_findThread _ _ _ _ ht, rfl⟩

/-- C3 counterexample. On a concrete successful run the trace contains a
badge-count evaluation and a commit carrying the unread mutation, but no
badge evaluation occurs after such a commit: the count is computed on the
flushed state strictly before the durable commit, refuting "evaluated
strictly after the unread-set mutation has been durably committed". -/
theorem claim_C3_counterexample :
    ((JobManager.execute_job sampleStore "j1" "u1"
        (ProcResult.completed 0 "ok" "") 1 2).2.any Event.isBadgeEval = true)
  ∧ ((JobManager.execute_job sampleStore "j1" "u1"
        (ProcResult.completed 0 "ok" "") 1 2).2.any (commitHasUnread "t1")
      = true)
  ∧ (badgeAfterUnreadCommit "t1"
      (JobManager.execute_job sampleStore "j1" "u1"
        (ProcResult.completed 0 "ok" "") 1 2).2 = false) := by
  exact ⟨rfl, rfl, rfl⟩

/-- C3 (amended). On every terminal transition the badge-count evaluation
(trace index 5) reports exactly the number of threads under the job's
device with the unread flag set in the mutated, flushed store — the store
the immediately following commit (trace index 6) then makes durable, and
which carries the just-finished job's unread mutation; the evaluation thus
reflects the just-finished job but happens strictly before, not after, the
durable commit. -/
theorem claim_C3_badge_count_before_commit (s : Store)
    (jobId freshUuid tid : String) (proc : ProcResult) (tStart tFinish : Nat)
    (job : JobRec) (th : ThreadRec)
    (hj : s.findJob jobId = some job)
    (htid : job.thread_id = some tid)
    (ht : s.findThread (some tid) = some th) :
    ((JobManager.execute_job s jobId freshUuid proc tStart tFinish).2[5]?
        = some (Event.badgeEval job.device_id
            (badgeCount
              (JobManager.execute_job s jobId freshUuid proc tStart tFinish).1
              job.device_id)))
  ∧ ((JobManager.execute_job s jobId freshUuid proc tStart tFinish).2[6]?
        = some (Event.commit
            (JobManager.execute_job s jobId freshUuid proc tStart tFinish).1))
  ∧ ∃ t2,
      (JobManager.execute_job s jobId freshUuid proc tStart
        tFinish).1.findThread (some tid) = some t2
      ∧ t2.has_unread = true := by
  unfold JobManager.execute_job
  rw [hj]
  simp only [Store.setJob]
  rcases hres : SessionManager.execute_job s.sessions job.runner job.device_id
      job.room_id true job.thread_id freshUuid proc with ⟨e, sess2⟩
  cases e with
  | ok r =>
    cases hs : r.success with
    | true =>
      simp only [hs, eq_self_iff_true, if_true, JobManager.finalizeJob]
      refine ⟨by simp, by simp, ?_⟩
      rw [htid]
      exact ⟨_, markUnread_findThread _ _ _ _ ht, rfl⟩
    | false =>
      simp only [hs, Bool.false_eq_true, if_false, JobManager.finalizeJob]
      refine ⟨by simp, by simp, ?_⟩
      rw [htid]
      exact ⟨_, markUnread_findThread _ _ _ _ ht, rfl⟩
  | error msg =>
    simp only [JobManager.finalizeJob]
    refine ⟨by simp, by simp, ?_⟩
    rw [htid]
    exact ⟨_, markUnread_findThread _ _ _ _ ht, rfl⟩

/-- Witness for C3 (amended) at a concrete input. -/
theorem claim_C3_badge_count_before_commit_witness :
    ((JobManager.execute_job sampleStore "j1" "u1"
        (ProcResult.completed 0 "ok" "") 1 2).2[5]?
        = some (Event.badgeEval sampleJob.device_id
            (badgeCount
              (JobManager.execute_job sampleStore "j1" "u1"
                (ProcResult.completed 0 "ok" "") 1 2).1
              sampleJob.device_id)))
  ∧ ((JobManager.execute_job sampleStore "j1" "u1"
        (ProcResult.completed 0 "ok" "") 1 2).2[6]?
        = some (Event.commit
            (JobManager.execute_job sampleStore "j1" "u1"
              (ProcResult.completed 0 "ok" "") 1 2).1))
  ∧ ∃ t2,
      (JobManager.execute_job sampleStore "j1" "u1"
        (ProcResult.completed 0 "ok" "") 1 2).1.findThread (some "t1")
        = some t2
      ∧ t2.has_unread = true :=
  claim_C3_badge_count_before_commit sampleStore "j1" "u1" "t1"
    (ProcResult.completed 0 "ok" "") 1 2 sampleJob sampleThread
    (by decide) (by decide) (by decide)

/-- Witness for C7 at a concrete input. -/
theorem claim_C7_broadcast_ordering_witness :
    ∃ stv ecode,
      (JobManager.execute_job sampleStore "j1" "u1"
          (ProcResult.completed 0 "out" "") 1 2).2[2]?
          = some (Event.broadcastRunning "j1" 1)
      ∧ (JobManager.execute_job sampleStore "j1" "u1"
          (ProcResult.completed 0 "out" "") 1 2).2[6]?
          = some (Event.commit
              (JobManager.execute_job sampleStore "j1" "u1"
                (ProcResult.completed 0 "out" "") 1 2).1)
      ∧ (JobManager.execute_job sampleStore "j1" "u1"
          (ProcResult.completed 0 "out" "") 1 2).2[7]?
          = some (Event.broadcastTerminal "j1" stv 2 ecode)
      ∧ (((JobManager.execute_job sampleStore "j1" "u1"
            (ProcResult.completed 0 "out" "") 1 2).2.take 8).all
            (fun e => !e.isNotify)) = true
      ∧ ∃ t2,
          (JobManager.execute_job sampleStore "j1" "u1"
            (ProcResult.completed 0 "out" "") 1 2).1.findThread (some "t1")
            = some t2
          ∧ t2.has_unread = true :=
  claim_C7_broadcast_ordering sampleStore "j1" "u1" "t1"
    (ProcResult.completed 0 "out" "") 1 2 sampleJob sampleThread
    (by decide) (by decide) (by decide)

/-- Every found job is driven to a terminal status with the matching exit
code. -/
theorem execute_job_terminal (s : Store) (jobId freshUuid : String)
    (proc : ProcResult) (tStart tFinish : Nat) (job : JobRec)
    (hj : s.findJob jobId = some job) :
    ∃ jf,
      (JobManager.execute_job s jobId freshUuid proc tStart tFinish).1.findJob
          jobId = some jf
      ∧ (jf.status = "success" ∨ jf.status = "failed") := by
  unfold JobManager.execute_job
  rw [hj]
  simp only [Store.setJob]
  rcases hres : SessionManager.execute_job s.sessions job.runner job.device_id
      job.room_id true job.thread_id freshUuid proc with ⟨e, sess2⟩
  cases e with
  | ok r =>
    cases hs : r.success with
    | true =>
      simp only [hs, eq_self_iff_true, if_true]
      exact ⟨_,
        finalizeJob_findJob _ _ _ _ _
          (findJob_setJob ⟨s.jobs, s.threads, s.rooms, sess2⟩ jobId job
            { job with status := "running", started_at := some tStart } hj rfl)
          rfl,
        Or.inl rfl⟩
    | false =>
      simp only [hs, Bool.false_eq_true, if_false]
      exact ⟨_,
        finalizeJob_findJob _ _ _ _ _
          (findJob_setJob ⟨s.jobs, s.threads, s.rooms, sess2⟩ jobId job
            { job with status := "running", started_at := some tStart } hj rfl)
          rfl,
        Or.inr rfl⟩
  | error msg =>
    simp only []
    exact ⟨_,
      finalizeJob_findJob _ _ _ _ _
        (findJob_setJob ⟨s.jobs, s.threads, s.rooms, sess2⟩ jobId job
          { job with status := "running", started_at := some tStart } hj rfl)
        rfl,
      Or.inr rfl⟩

/-- C10. `create_job` returns a snapshot whose status is `queued` whether
or not a background dispatch facility is supplied; in the synchronous case
(no background facility) the job stored after the call is nevertheless
already terminal (`success` or `failed`), so the returned snapshot never
reflects the running or terminal status. -/
theorem claim_C10_create_job_snapshot_queued (s : Store)
    (jobId runner input_text device_id room_id : String)
    (thread_id notify_token : Option String) (freshUuid : String)
    (proc : ProcResult) (tCreate tStart tFinish : Nat)
    (hnone : s.findJob jobId = none) :
    ((JobManager.create_job s jobId runner input_text device_id room_id
        thread_id notify_token true freshUuid proc tCreate tStart
        tFinish).1.status = "queued")
  ∧ ((JobManager.create_job s jobId runner input_text device_id room_id
        thread_id notify_token false freshUuid proc tCreate tStart
        tFinish).1.status = "queued")
  ∧ ∃ jf,
      (JobManager.create_job s jobId runner input_text device_id room_id
        thread_id notify_token false freshUuid proc tCreate tStart
        tFinish).2.1.findJob jobId = some jf
      ∧ (jf.status = "success" ∨ jf.status = "failed") := by
  refine ⟨rfl, rfl, ?_⟩
  have hj1 : (Store.mk
      (s.jobs ++ [⟨jobId, runner, input_text, device_id, room_id, thread_id,
        "queued", none, none, none, none, none, notify_token, tCreate⟩])
      s.threads s.rooms s.sessions).findJob jobId
      = some ⟨jobId, runner, input_text, device_id, room_id, thread_id,
        "queued", none, none, none, none, none, notify_token, tCreate⟩ := by
    unfold Store.findJob at hnone ⊢
    simp [List.find?_append, hnone]
  unfold JobManager.create_job
  simp only [Bool.false_eq_true, if_false]
  exact execute_job_terminal _ _ _ _ _ _ _ hj1

/-- Witness for C10 at a concrete input: a job created in an empty store
without a background facility; the snapshot reads `queued` while the stored
job is terminal. -/
theorem claim_C10_create_job_snapshot_queued_witness :
    ((JobManager.create_job ⟨[], [], [], []⟩ "j1" "claude" "p" "d1" "r1"
        (some "t1") none true "u1" (ProcResult.completed 0 "ok" "") 0 1
        2).1.status = "queued")
  ∧ ((JobManager.create_job ⟨[], [], [], []⟩ "j1" "claude" "p" "d1" "r1"
        (some "t1") none false "u1" (ProcResult.completed 0 "ok" "") 0 1
        2).1.status = "queued")
  ∧ ∃ jf,
      (JobManager.create_job ⟨[], [], [], []⟩ "j1" "claude" "p" "d1" "r1"
        (some "t1") none false "u1" (ProcResult.completed 0 "ok" "") 0 1
        2).2.1.findJob "j1" = some jf
      ∧ (jf.status = "success" ∨ jf.status = "failed") :=
  claim_C10_create_job_snapshot_queued ⟨[], [], [], []⟩ "j1" "claude" "p"
    "d1" "r1" (some "t1") none "u1" (ProcResult.completed 0 "ok" "") 0 1 2
    (by decide)
